import Mathlib

/-!
Shallow embedding of the NowTV extractor (`youtube_dl/extractor/nowtv.py`,
`NowTVIE._real_extract`) together with the shared helpers it calls.

Python strings are modelled as Lean `String`s; the string helpers below work
on the underlying `List Char` so that they compute by structural recursion.
Helpers that live in the shared `youtube_dl/utils.py` / `common.py` modules
(which are not part of the extractor source) are modelled from the spec and
carry a doc comment saying so.
-/

namespace NowTV

/-- Python `s.split(sep)` on the character-list level: splitting the empty
string yields `[[]]` (Python: `''.split('/') == ['']`), and every separator
occurrence opens a new (possibly empty) piece. -/
def pySplitAll (sep : Char) : List Char → List (List Char)
  | [] => [[]]
  | c :: cs =>
    let r := pySplitAll sep cs
    if c = sep then [] :: r
    else
      match r with
      | [] => [[c]]
      | h :: t => (c :: h) :: t

/-- Python `s.split(sep)` returning `String`s. -/
def pySplit (s : String) (sep : Char) : List String :=
  (pySplitAll sep s.data).map String.mk

/-- Python `s.split(sep, 1)` unpacked into a pair: `none` when the separator
does not occur (Python raises `ValueError: not enough values to unpack`). -/
def splitOnceAux (sep : Char) : List Char → Option (List Char × List Char)
  | [] => none
  | c :: cs =>
    if c = sep then some ([], cs)
    else
      match splitOnceAux sep cs with
      | none => none
      | some (a, b) => some (c :: a, b)

/-- `splitOnceAux` on `String`s: `a, b = s.split(sep, 1)`. -/
def splitOnce (sep : Char) (s : String) : Option (String × String) :=
  (splitOnceAux sep s.data).map fun p => (String.mk p.1, String.mk p.2)

/-- Modelled from the spec: `remove_start` from the shared utils module is not
under src/. The spec says "Strip a single leading `/` from the path if
present"; `remove_start(s, start)` drops `start` when it begins `s`. -/
def remove_start (s start : String) : String :=
  if start.data.isPrefixOf s.data then String.mk (s.data.drop start.data.length) else s

/-- Modelled from the spec: `determine_ext` from the shared utils module is not
under src/. The spec says "Determine its extension from the path": the part
after the last dot; a path with no dot has no recognised extension. -/
def determine_ext (path : String) : String :=
  let parts := pySplitAll '.' path.data
  if parts.length ≤ 1 then "unknown_video" else String.mk (parts.getLastD [])

/-- Digit-string to `Nat`; `none` when empty or a non-digit occurs. -/
def digitsToNat : List Char → Option Nat
  | [] => none
  | cs =>
    cs.foldl
      (fun acc c =>
        match acc with
        | none => none
        | some n => if c.isDigit then some (n * 10 + (c.toNat - 48)) else none)
      (some 0)

/-- Python `int(s)` on an optional decimal string (with optional sign). -/
def pyIntParse (s : String) : Option Int :=
  match s.data with
  | '-' :: rest => (digitsToNat rest).map fun n => -(n : Int)
  | l => (digitsToNat l).map fun n => (n : Int)

/-- Modelled from the spec: `int_or_none` from the shared utils module is not
under src/. The spec says "bitrate parsed as an optional integer from the
descriptor's bitrate field (missing/unparseable → absent, not zero)". -/
def int_or_none (v : Option String) : Option Int :=
  v.bind pyIntParse

/-- Modelled from the spec: `parse_duration` from the shared utils module is
not under src/. The spec says it "parses a duration string into whole seconds
(supports HH:MM:SS / MM:SS / plain-seconds style representations); absent or
unparseable → absent". -/
def parse_duration (v : Option String) : Option Nat :=
  v.bind fun s =>
    let parts := (pySplitAll ':' s.data).map digitsToNat
    if parts.length ≤ 3 then
      (parts.mapM (fun o => o)).map fun l => l.foldl (fun acc n => acc * 60 + n) 0
    else none

/-- Days since the Unix epoch of a proleptic-Gregorian civil date
(the standard days-from-civil computation). -/
def daysFromCivil (y m d : Nat) : Int :=
  let yy : Int := if m ≤ 2 then (y : Int) - 1 else (y : Int)
  let era : Int := yy / 400
  let yoe : Int := yy - era * 400
  let mp : Int := if 3 ≤ m then (m : Int) - 3 else (m : Int) + 9
  let doy : Int := (153 * mp + 2) / 5 + (d : Int) - 1
  let doe : Int := yoe * 365 + yoe / 4 - yoe / 100 + doy
  era * 146097 + doe - 719468

/-- Modelled from the spec: `parse_iso8601` from the shared utils module is not
under src/. The call site passes a single space as the date/time delimiter;
the spec says "parse the broadcast-start field as ISO-8601, treating a single
space as an acceptable substitute for the standard date/time separator;
absent or unparseable → absent". Parses `YYYY-MM-DD HH:MM:SS` to epoch
seconds. -/
def parse_iso8601 (v : Option String) : Option Int :=
  v.bind fun s =>
    match pySplitAll ' ' s.data with
    | [datePart, timePart] =>
      match (pySplitAll '-' datePart).map digitsToNat,
            (pySplitAll ':' timePart).map digitsToNat with
      | [some y, some mo, some d], [some h, some mi, some sec] =>
        some (daysFromCivil y mo d * 86400 + (h : Int) * 3600 + (mi : Int) * 60 + (sec : Int))
      | _, _ => none
    | _ => none

/-- Python `a or b` on two optional strings: the left value when it is truthy
(present and non-empty), otherwise the right value as-is. -/
def pyOr (a b : Option String) : Option String :=
  match a with
  | some s => if s.data.isEmpty then b else some s
  | none => b

/-- One element of `files['items']`: `path` is accessed with a direct
subscript, `bitrate` through `.get`. -/
structure FileItem where
  path : String
  bitrate : Option String := none
deriving Repr, DecidableEq

/-- The JSON value under the `files` key of the API response: JSON `null`, or
an object that may or may not carry the `items` key. -/
inductive FilesVal where
  | null
  | obj (items : Option (List FileItem))
deriving Repr, DecidableEq

/-- Python truthiness of the `files` value (`if not files:`): `null` and the
empty object are falsy, an object holding the `items` key is truthy. -/
def FilesVal.falsy : FilesVal → Bool
  | .null => true
  | .obj none => true
  | .obj (some _) => false

/-- The nested `format` descriptor (`info.get('format', {})`). -/
structure FormatInfo where
  defaultImage169Format : Option String := none
  defaultImage169Logo : Option String := none
deriving Repr, DecidableEq

/-- The parsed API response. Every field the extractor reads is optional: a
`none` models the key being absent from the JSON object. The numeric `id` is
modelled by its decimal string (the code immediately converts it with
`compat_str`). -/
structure ApiInfo where
  id : Option String := none
  title : Option String := none
  free : Option Bool := none
  geoblocked : Option Bool := none
  articleLong : Option String := none
  articleShort : Option String := none
  broadcastStartDate : Option String := none
  duration : Option String := none
  format : Option FormatInfo := none
  files : Option FilesVal := none
deriving Repr, DecidableEq

/-- One entry of the `formats` list built by the loop. -/
structure StreamVariant where
  url : String
  app : String
  play_path : String
  ext : String
  page_url : String
  player_url : String
  tbr : Option Int
deriving Repr, DecidableEq

/-- Errors raised during extraction. `expected` models
`ExtractorError(msg, expected=True)`; the other constructors model unhandled
Python exceptions, which the host surfaces as generic extraction failures. -/
inductive ExtErr where
  | expected (msg : String)
  | keyError (key : String)
  | typeError (msg : String)
  | valueError (msg : String)
deriving Repr, DecidableEq

/-- `info[key]`: a direct subscript raises `KeyError` when the key is absent. -/
def reqField {α : Type} (v : Option α) (key : String) : Except ExtErr α :=
  match v with
  | none => .error (.keyError key)
  | some x => .ok x

/-- `files['items']`: subscripting `null` raises `TypeError`, subscripting an
object without the key raises `KeyError`. -/
def FilesVal.getItems : FilesVal → Except ExtErr (List FileItem)
  | .null => .error (.typeError "NoneType object is not subscriptable")
  | .obj none => .error (.keyError "items")
  | .obj (some l) => .ok l

/-- Message of the geo-restriction error raised at line 151. -/
def geoMsg (vid : String) : String :=
  "Video " ++ vid ++ " is not available from your location due to geo restriction"

/-- Message of the paywall error raised at line 156. -/
def payMsg (vid : String) : String :=
  "Video " ++ vid ++ " is not available for free"

/-- The identifier-derivation step (lines 139-142): split the captured slug on
`/`; when the raw string is longer than 2 characters, join the first and last
pieces with `/`, otherwise keep the slug. -/
def deriveDisplayId (display_id : String) : String :=
  let display_id_split := pySplit display_id '/'
  if 2 < display_id.length then
    display_id_split.headD "" ++ "/" ++ display_id_split.getLastD ""
  else display_id

/-- The `StreamVariant` a retained `f4v` descriptor constructs (lines 164-173):
`none` when `remove_start(item['path'], '/').split('/', 1)` cannot be
unpacked into two values. -/
def mkVariant (item : FileItem) : Option StreamVariant :=
  match splitOnce '/' (remove_start item.path "/") with
  | none => none
  | some (app, play_path) =>
    some
      { url := "rtmpe://fms.rtl.de"
        app := app
        play_path := "mp4:" ++ play_path
        ext := "flv"
        page_url := "http://rtlnow.rtl.de"
        player_url := "http://cdn.static-fra.de/now/vodplayer.swf"
        tbr := int_or_none item.bitrate }

/-- The `for item in files['items']` loop (lines 159-174): descriptors whose
extension is not `f4v` are skipped; a retained descriptor whose path cannot be
split two ways aborts the loop with an unhandled `ValueError`. -/
def processItems : List FileItem → Except ExtErr (List StreamVariant)
  | [] => .ok []
  | item :: rest =>
    if determine_ext item.path != "f4v" then processItems rest
    else
      match mkVariant item with
      | none => .error (.valueError "not enough values to unpack")
      | some v => (processItems rest).map fun tl => v :: tl

/-- Ranking used by `sortFormats`: bitrate ascending with a missing bitrate
least preferred. -/
def tbrLe (v w : StreamVariant) : Bool :=
  match v.tbr, w.tbr with
  | none, _ => true
  | some _, none => false
  | some a, some b => a ≤ b

/-- Stable insertion for `sortFormats`. -/
def insertVariant (v : StreamVariant) : List StreamVariant → List StreamVariant
  | [] => [v]
  | w :: ws => if tbrLe v w then v :: w :: ws else w :: insertVariant v ws

/-- Modelled from the spec: `_sort_formats` from the shared extractor base is
not under src/. The spec says the collection is "sorted by the host
framework's standard format-ranking rule (in the absence of resolution/codec
data, effectively by bitrate ascending, with missing bitrate sorting as
lowest / least preferred — ties broken by original order)", and that an
empty-formats result is structurally valid output. A stable insertion sort by
`tbrLe`. -/
def sortFormats : List StreamVariant → List StreamVariant
  | [] => []
  | v :: vs => insertVariant v (sortFormats vs)

/-- The record returned at lines 183-192. -/
structure ExtractionResult where
  id : String
  display_id : String
  title : String
  description : Option String
  thumbnail : Option String
  timestamp : Option Int
  duration : Option Nat
  formats : List StreamVariant
deriving Repr, DecidableEq

deriving instance DecidableEq for Except

/-- The payload transformation of `_real_extract` after the JSON fetch
(lines 148-192), in the source's evaluation order: `info['id']`,
`info['files']`, the availability gate, `files['items']`, the formats loop,
sorting, `info['title']`, then result assembly. -/
def extractFromInfo (display_id : String) (info : ApiInfo) : Except ExtErr ExtractionResult := do
  let vid ← reqField info.id "id"
  let files ← reqField info.files "files"
  if files.falsy then
    if info.geoblocked.getD false then
      throw (.expected (geoMsg vid))
    if info.free.getD true = false then
      throw (.expected (payMsg vid))
  let items ← files.getItems
  let fmts ← processItems items
  let title ← reqField info.title "title"
  pure
    { id := vid
      display_id := display_id
      title := title
      description := pyOr info.articleLong info.articleShort
      thumbnail :=
        pyOr (info.format.getD {}).defaultImage169Format (info.format.getD {}).defaultImage169Logo
      timestamp := parse_iso8601 info.broadcastStartDate
      duration := parse_duration info.duration
      formats := sortFormats fmts }

/-- `_real_extract` given the captured slug and the fetched payload:
identifier derivation followed by the payload transformation. -/
def realExtract (slug : String) (info : ApiInfo) : Except ExtErr ExtractionResult :=
  extractFromInfo (deriveDisplayId slug) info


/-- Items list for the C6 witness: one `f4v` descriptor and one `mp4`
descriptor. -/
def c6Items : List FileItem :=
  [{ path := "/a/b.f4v", bitrate := some "800" }, { path := "/x/y.mp4" }]

/-- Payload for the C6 witness. -/
def c6Info : ApiInfo :=
  { id := some "1", title := some "t", files := some (.obj (some c6Items)) }

/-- Expected result for the C6 witness: the `mp4` descriptor is dropped, the
`f4v` one yields a single variant. -/
def c6Result : ExtractionResult :=
  { id := "1"
    display_id := "d"
    title := "t"
    description := none
    thumbnail := none
    timestamp := none
    duration := none
    formats :=
      [{ url := "rtmpe://fms.rtl.de"
         app := "a"
         play_path := "mp4:b.f4v"
         ext := "flv"
         page_url := "http://rtlnow.rtl.de"
         player_url := "http://cdn.static-fra.de/now/vodplayer.swf"
         tbr := some 800 }] }

/-- Payload for the C8 witness: both description forms present, the long one
non-empty. -/
def c8Info : ApiInfo :=
  { id := some "1", title := some "t", files := some (.obj (some [])),
    articleLong := some "L", articleShort := some "s" }

/-- Expected result for the C8 witness. -/
def c8Result : ExtractionResult :=
  { id := "1"
    display_id := "d"
    title := "t"
    description := some "L"
    thumbnail := none
    timestamp := none
    duration := none
    formats := [] }

/-- Payload for the C9 witness. -/
def c9Info : ApiInfo :=
  { id := some "9", title := some "t", files := some (.obj (some [{ path := "/a/b.f4v" }])) }

/-- Result of both runs in the C9 witness. -/
def c9Result : ExtractionResult :=
  { id := "9"
    display_id := "s/ug"
    title := "t"
    description := none
    thumbnail := none
    timestamp := none
    duration := none
    formats :=
      [{ url := "rtmpe://fms.rtl.de"
         app := "a"
         play_path := "mp4:b.f4v"
         ext := "flv"
         page_url := "http://rtlnow.rtl.de"
         player_url := "http://cdn.static-fra.de/now/vodplayer.swf"
         tbr := none }] }

end NowTV

namespace NowTV

/-! ### Helper lemmas -/

theorem splitOnceAux_eq_none {sep : Char} {l : List Char} (h : sep ∉ l) :
    splitOnceAux sep l = none := by
  induction l with
  | nil => rfl
  | cons c cs ih =>
    simp only [List.mem_cons, not_or] at h
    have hc : ¬c = sep := fun hh => h.1 hh.symm
    simp [splitOnceAux, hc, ih h.2]

theorem insertVariant_perm (v : StreamVariant) (l : List StreamVariant) :
    (insertVariant v l).Perm (v :: l) := by
  induction l with
  | nil => simp [insertVariant]
  | cons w ws ih =>
    by_cases h : tbrLe v w
    · simp [insertVariant, h]
    · simp only [insertVariant, h, Bool.false_eq_true, if_false]
      exact (ih.cons w).trans (List.Perm.swap v w ws)

theorem sortFormats_perm (l : List StreamVariant) : (sortFormats l).Perm l := by
  induction l with
  | nil => simp [sortFormats]
  | cons v vs ih => exact (insertVariant_perm v (sortFormats vs)).trans (ih.cons v)

theorem filterMap_length_of_isSome {α β : Type} (f : α → Option β) (l : List α)
    (h : ∀ a ∈ l, (f a).isSome) : (l.filterMap f).length = l.length := by
  induction l with
  | nil => rfl
  | cons a l ih =>
    have ha := h a (List.mem_cons_self a l)
    cases hf : f a with
    | none => rw [hf] at ha; simp at ha
    | some b =>
      simp only [List.filterMap_cons, hf, List.length_cons]
      rw [ih fun x hx => h x (List.mem_cons_of_mem a hx)]

theorem processItems_ok (items : List FileItem) (fmts : List StreamVariant)
    (h : processItems items = .ok fmts) :
    fmts = (items.filter fun it => determine_ext it.path == "f4v").filterMap mkVariant ∧
      ∀ it ∈ items, determine_ext it.path = "f4v" → (mkVariant it).isSome := by
  induction items generalizing fmts with
  | nil =>
    simp only [processItems] at h
    cases h
    simp
  | cons item rest ih =>
    by_cases hext : determine_ext item.path = "f4v"
    · simp only [processItems, hext, bne_self_eq_false, Bool.false_eq_true, if_false] at h
      cases hmk : mkVariant item with
      | none => rw [hmk] at h; exact absurd h (by simp)
      | some v =>
        rw [hmk] at h
        cases hrest : processItems rest with
        | error e => rw [hrest] at h; exact absurd h (by simp [Except.map])
        | ok tl =>
          rw [hrest] at h
          simp only [Except.map, Except.ok.injEq] at h
          obtain ⟨htl, hall⟩ := ih tl hrest
          constructor
          · simp [← h, List.filter_cons, hext, List.filterMap_cons, hmk, htl]
          · intro it hit hext'
            rcases List.mem_cons.mp hit with rfl | hmem
            · simp [hmk]
            · exact hall it hmem hext'
    · have hb : (determine_ext item.path != "f4v") = true := by
        simpa using hext
      simp only [processItems, hb, if_true] at h
      obtain ⟨htl, hall⟩ := ih fmts h
      constructor
      · have : (determine_ext item.path == "f4v") = false := by simpa using hext
        simp [List.filter_cons, this, htl]
      · intro it hit hext'
        rcases List.mem_cons.mp hit with rfl | hmem
        · exact absurd hext' hext
        · exact hall it hmem hext'

end NowTV

namespace NowTV

theorem extract_ok_inv (d : String) (info : ApiInfo) (r : ExtractionResult)
    (h : extractFromInfo d info = .ok r) :
    ∃ vid items fmts title,
      info.id = some vid ∧ info.files = some (.obj (some items)) ∧
        processItems items = .ok fmts ∧ info.title = some title ∧
        r = { id := vid
              display_id := d
              title := title
              description := pyOr info.articleLong info.articleShort
              thumbnail := pyOr (info.format.getD {}).defaultImage169Format
                (info.format.getD {}).defaultImage169Logo
              timestamp := parse_iso8601 info.broadcastStartDate
              duration := parse_duration info.duration
              formats := sortFormats fmts } := by
  simp only [extractFromInfo, reqField, bind, Except.bind, pure, Except.pure, throw, throwThe,
    MonadExceptOf.throw, Functor.map, Except.map] at h
  cases hid : info.id with
  | none => rw [hid] at h; exact absurd h (by simp)
  | some vid =>
  rw [hid] at h
  cases hfi : info.files with
  | none => rw [hfi] at h; exact absurd h (by simp)
  | some files =>
  rw [hfi] at h
  cases files with
  | null =>
    simp only [FilesVal.falsy, FilesVal.getItems, if_true] at h
    split at h
    · exact absurd h (by simp)
    · split at h
      · exact absurd h (by simp)
      · exact absurd h (by simp)
  | obj oitems =>
    cases oitems with
    | none =>
      simp only [FilesVal.falsy, FilesVal.getItems, if_true] at h
      split at h
      · exact absurd h (by simp)
      · split at h
        · exact absurd h (by simp)
        · exact absurd h (by simp)
    | some items =>
      simp only [FilesVal.falsy, FilesVal.getItems, Bool.false_eq_true, if_false] at h
      cases hpi : processItems items with
      | error e => rw [hpi] at h; exact absurd h (by simp)
      | ok fmts =>
        rw [hpi] at h
        cases htl : info.title with
        | none => rw [htl] at h; exact absurd h (by simp)
        | some title =>
          rw [htl] at h
          simp only [Except.ok.injEq] at h
          exact ⟨vid, items, fmts, title, rfl, rfl, hpi, rfl, h.symm⟩

/-! ### Claims -/

/-- C1: for every captured slug of character length greater than 2, the derived
display identifier is the first `/`-separated segment joined to the last
segment by `/` (middle segments discarded); a slug of character length at most
2 is left unchanged. The branch condition is the character length of the raw
string, not the number of segments. -/
theorem nowtv_C1 (slug : String) :
    (2 < slug.length →
      deriveDisplayId slug = (pySplit slug '/').headD "" ++ "/" ++ (pySplit slug '/').getLastD "")
    ∧ (slug.length ≤ 2 → deriveDisplayId slug = slug) := by
  constructor
  · intro h
    simp [deriveDisplayId, h]
  · intro h
    simp [deriveDisplayId, Nat.not_lt.mpr h]

/-- Witness for C1 at the slugs `"ab/cde/fg"` (length 9) and `"a"` (length 1). -/
theorem nowtv_C1_witness :
    (2 < ("ab/cde/fg" : String).length ∧ deriveDisplayId "ab/cde/fg" = "ab/fg") ∧
      (("a" : String).length ≤ 2 ∧ deriveDisplayId "a" = "a") := by
  constructor
  · refine ⟨by decide, ?_⟩
    have h := (nowtv_C1 "ab/cde/fg").1 (by decide)
    rw [h]
    decide
  · exact ⟨by decide, (nowtv_C1 "a").2 (by decide)⟩

/-- Counterexample to C3 as stated: `"abc"` is a single-segment slug (its
split on `/` is `["abc"]`), yet the derivation does not leave it unchanged —
its length exceeds 2, so it is collapsed to `"abc/abc"`. -/
theorem nowtv_C3_cex :
    pySplit "abc" '/' = ["abc"] ∧ deriveDisplayId "abc" = "abc/abc" ∧
      deriveDisplayId "abc" ≠ "abc" := by
  decide

/-- C3 (amended): a single-segment slug of character length at most 2 is left
unchanged; a single-segment slug of character length greater than 2 is
replaced by the slug joined to itself by `/`. -/
theorem nowtv_C3 (slug : String) (hs : pySplit slug '/' = [slug]) :
    (slug.length ≤ 2 → deriveDisplayId slug = slug) ∧
      (2 < slug.length → deriveDisplayId slug = slug ++ "/" ++ slug) := by
  constructor
  · intro h
    simp [deriveDisplayId, Nat.not_lt.mpr h]
  · intro h
    simp [deriveDisplayId, h, hs]

/-- Witness for C3 (amended) at the single-segment slugs `"ab"` and `"abcd"`. -/
theorem nowtv_C3_witness :
    pySplit "ab" '/' = ["ab"] ∧ deriveDisplayId "ab" = "ab" ∧
      pySplit "abcd" '/' = ["abcd"] ∧ deriveDisplayId "abcd" = "abcd" ++ "/" ++ "abcd" :=
  ⟨by decide, (nowtv_C3 "ab" (by decide)).1 (by decide), by decide,
    (nowtv_C3 "abcd" (by decide)).2 (by decide)⟩

/-- C2: when the `files` value of the payload is empty (falsy), extraction
fails with the expected geo-restriction error — whose message contains the
video id — whenever `geoblocked` is true, regardless of `free`; when
`geoblocked` does not hold and `free` is explicitly false it fails with the
expected paywall error. The geoblock check is evaluated first, so the
geo-restriction error wins when both conditions hold. -/
theorem nowtv_C2 (d : String) (info : ApiInfo) (vid : String) (files : FilesVal)
    (hid : info.id = some vid) (hfi : info.files = some files) (hempty : files.falsy = true) :
    (info.geoblocked = some true →
      extractFromInfo d info = .error (.expected (geoMsg vid)) ∧
        ∃ pre post, geoMsg vid = pre ++ vid ++ post) ∧
    (info.geoblocked.getD false = false → info.free = some false →
      extractFromInfo d info = .error (.expected (payMsg vid)) ∧
        ∃ pre post, payMsg vid = pre ++ vid ++ post) := by
  constructor
  · intro hg
    refine ⟨?_, "Video ", " is not available from your location due to geo restriction", rfl⟩
    simp [extractFromInfo, reqField, hid, hfi, hempty, hg, bind, Except.bind, throw, throwThe,
      MonadExceptOf.throw]
  · intro hg hfree
    refine ⟨?_, "Video ", " is not available for free", rfl⟩
    simp [extractFromInfo, reqField, hid, hfi, hempty, hg, hfree, bind, Except.bind, throw,
      throwThe, MonadExceptOf.throw, pure, Except.pure]

/-- Witness for C2: a geoblocked non-free video reports the geo restriction
(the tie-break), and a merely non-free one reports the paywall. -/
theorem nowtv_C2_witness :
    (extractFromInfo "d"
        { id := some "7", title := some "t", files := some (.obj none),
          geoblocked := some true, free := some false } =
        .error (.expected (geoMsg "7")) ∧
      ∃ pre post, geoMsg "7" = pre ++ "7" ++ post) ∧
    (extractFromInfo "d"
        { id := some "7", title := some "t", files := some .null,
          geoblocked := some false, free := some false } =
        .error (.expected (payMsg "7")) ∧
      ∃ pre post, payMsg "7" = pre ++ "7" ++ post) := by
  constructor
  · exact (nowtv_C2 "d" _ "7" (.obj none) rfl rfl rfl).1 rfl
  · exact (nowtv_C2 "d" _ "7" .null rfl rfl rfl).2 (by decide) rfl

end NowTV

namespace NowTV

/-- Counterexample to C4 as stated: a payload carrying both `id` and `title`
but lacking `files` makes extraction fail with a generic `KeyError` (the
`files` subscript at line 148 is unconditional), so an absent `files` field
does by itself cause a generic extraction failure. -/
theorem nowtv_C4_cex :
    ({ id := some "1", title := some "t" } : ApiInfo).id ≠ none ∧
      ({ id := some "1", title := some "t" } : ApiInfo).title ≠ none ∧
      extractFromInfo "d" { id := some "1", title := some "t" } =
        .error (.keyError "files") := by
  decide

/-- C4 (amended): the structurally required fields are `id`, `files` and
`title`, in that access order: a missing `id` fails generically with
`KeyError 'id'`; with `id` present, a missing `files` fails with
`KeyError 'files'`; with `id` present, `files` present and non-empty and the
formats loop succeeding, a missing `title` fails with `KeyError 'title'`. -/
theorem nowtv_C4 (d : String) (info : ApiInfo) :
    (info.id = none → extractFromInfo d info = .error (.keyError "id")) ∧
      (∀ vid, info.id = some vid → info.files = none →
        extractFromInfo d info = .error (.keyError "files")) ∧
      (∀ vid items fmts, info.id = some vid → info.files = some (.obj (some items)) →
        processItems items = .ok fmts → info.title = none →
        extractFromInfo d info = .error (.keyError "title")) := by
  refine ⟨?_, ?_, ?_⟩
  · intro h
    simp [extractFromInfo, reqField, h, bind, Except.bind]
  · intro vid h hf
    simp [extractFromInfo, reqField, h, hf, bind, Except.bind]
  · intro vid items fmts h hf hp ht
    simp [extractFromInfo, reqField, h, hf, hp, ht, bind, Except.bind, FilesVal.falsy,
      FilesVal.getItems, pure, Except.pure, Functor.map, Except.map]

/-- Witness for C4 (amended): the three `KeyError`s at concrete payloads. -/
theorem nowtv_C4_witness :
    extractFromInfo "d" {} = .error (.keyError "id") ∧
      extractFromInfo "d" { id := some "1" } = .error (.keyError "files") ∧
      extractFromInfo "d" { id := some "1", files := some (.obj (some [])) } =
        .error (.keyError "title") :=
  ⟨(nowtv_C4 "d" {}).1 rfl, (nowtv_C4 "d" { id := some "1" }).2.1 "1" rfl rfl,
    (nowtv_C4 "d" { id := some "1", files := some (.obj (some [])) }).2.2 "1" [] [] rfl rfl rfl
      rfl⟩

/-- Counterexample to C5 as stated: with empty `files`, `geoblocked` absent
and `free` absent, extraction does not return a structurally valid result with
empty formats — it falls through the availability gate into the
`files['items']` subscript and fails with a generic `KeyError`. -/
theorem nowtv_C5_cex :
    ({ id := some "1", title := some "t", files := some (.obj none) } : ApiInfo).geoblocked =
        none ∧
      ({ id := some "1", title := some "t", files := some (.obj none) } : ApiInfo).free = none ∧
      extractFromInfo "d" { id := some "1", title := some "t", files := some (.obj none) } =
        .error (.keyError "items") := by
  decide

/-- C5 (amended): when the `files` value is empty (falsy), `geoblocked` does
not hold and `free` is not explicitly false, extraction does not return an
empty-formats result: it falls through the gate and fails with an unhandled
generic error at the `files['items']` subscript — `KeyError` for an empty
object, `TypeError` for JSON null. -/
theorem nowtv_C5 (d : String) (info : ApiInfo) (vid : String) (files : FilesVal)
    (hid : info.id = some vid) (hfi : info.files = some files)
    (hg : info.geoblocked.getD false = false) (hfree : info.free.getD true = true) :
    (files = .obj none → extractFromInfo d info = .error (.keyError "items")) ∧
      (files = .null →
        extractFromInfo d info = .error (.typeError "NoneType object is not subscriptable")) := by
  constructor <;> intro hcase <;> subst hcase <;>
    simp [extractFromInfo, reqField, hid, hfi, hg, hfree, bind, Except.bind, pure, Except.pure,
      FilesVal.falsy, FilesVal.getItems, throw, throwThe, MonadExceptOf.throw]

/-- Witness for C5 (amended) at two concrete payloads. -/
theorem nowtv_C5_witness :
    extractFromInfo "d"
        { id := some "1", title := some "t", files := some (.obj none), free := some true } =
      .error (.keyError "items") ∧
      extractFromInfo "d" { id := some "1", title := some "t", files := some .null } =
        .error (.typeError "NoneType object is not subscriptable") :=
  ⟨(nowtv_C5 "d"
      { id := some "1", title := some "t", files := some (.obj none), free := some true } "1"
      (.obj none) rfl rfl rfl rfl).1 rfl,
    (nowtv_C5 "d" { id := some "1", title := some "t", files := some .null } "1" .null rfl rfl
      rfl rfl).2 rfl⟩

/-- C6: in a successful extraction, every variant of the output formats
collection derives from a descriptor whose extension is `f4v` (so a
descriptor with any other extension contributes nothing), and the collection
has exactly one variant per `f4v` descriptor of the items list. -/
theorem nowtv_C6 (d : String) (info : ApiInfo) (items : List FileItem) (r : ExtractionResult)
    (hfi : info.files = some (.obj (some items))) (hr : extractFromInfo d info = .ok r) :
    (∀ v ∈ r.formats, ∃ it ∈ items, determine_ext it.path = "f4v" ∧ mkVariant it = some v) ∧
      r.formats.length = (items.filter fun it => determine_ext it.path == "f4v").length := by
  obtain ⟨vid, items', fmts, title, hid, hfi', hpi, htl, hre⟩ := extract_ok_inv d info r hr
  rw [hfi] at hfi'
  have hII : items = items' := by simpa using hfi'
  subst hII
  obtain ⟨hfmts, hall⟩ := processItems_ok items fmts hpi
  have hperm : (sortFormats fmts).Perm fmts := sortFormats_perm fmts
  have hrf : r.formats = sortFormats fmts := by rw [hre]
  constructor
  · intro v hv
    have hv' : v ∈ fmts := hperm.mem_iff.mp (hrf ▸ hv)
    rw [hfmts] at hv'
    obtain ⟨it, hit, hmk⟩ := List.mem_filterMap.mp hv'
    have hfil := List.mem_filter.mp hit
    exact ⟨it, hfil.1, by simpa using hfil.2, hmk⟩
  · rw [hrf, hperm.length_eq, hfmts, filterMap_length_of_isSome]
    intro it hit
    have hfil := List.mem_filter.mp hit
    exact hall it hfil.1 (by simpa using hfil.2)

/-- Witness for C6 at a concrete payload. -/
theorem nowtv_C6_witness :
    extractFromInfo "d" c6Info = .ok c6Result ∧
      c6Result.formats.length =
        (c6Items.filter fun it => determine_ext it.path == "f4v").length ∧
      ∀ v ∈ c6Result.formats,
        ∃ it ∈ c6Items, determine_ext it.path = "f4v" ∧ mkVariant it = some v := by
  have h := nowtv_C6 "d" c6Info c6Items c6Result rfl (by decide)
  exact ⟨by decide, h.2, h.1⟩

end NowTV

namespace NowTV

/-- C7: the variant built from a retained `f4v` descriptor has the fixed RTMP
endpoint; application namespace the first `/`-separated component of the path
after stripping at most one leading `/`; play-path `mp4:` followed by the rest
of the path; container kind `flv`; the fixed page and player references; and
bitrate the descriptor's bitrate field parsed as an optional integer —
absent, not zero, when the field is missing or unparseable. -/
theorem nowtv_C7 (item : FileItem) (app pp : String)
    (h : splitOnce '/' (remove_start item.path "/") = some (app, pp)) :
    mkVariant item =
      some
        { url := "rtmpe://fms.rtl.de"
          app := app
          play_path := "mp4:" ++ pp
          ext := "flv"
          page_url := "http://rtlnow.rtl.de"
          player_url := "http://cdn.static-fra.de/now/vodplayer.swf"
          tbr := int_or_none item.bitrate } ∧
      int_or_none none = none ∧ ∀ s, pyIntParse s = none → int_or_none (some s) = none := by
  refine ⟨?_, rfl, ?_⟩
  · simp [mkVariant, h]
  · intro s hs
    simp [int_or_none, hs]

/-- Witness for C7 at the spec's example path `/app1/sub/video.f4v` with
bitrate `800`. -/
theorem nowtv_C7_witness :
    splitOnce '/' (remove_start "/app1/sub/video.f4v" "/") = some ("app1", "sub/video.f4v") ∧
      mkVariant { path := "/app1/sub/video.f4v", bitrate := some "800" } =
        some
          { url := "rtmpe://fms.rtl.de"
            app := "app1"
            play_path := "mp4:" ++ "sub/video.f4v"
            ext := "flv"
            page_url := "http://rtlnow.rtl.de"
            player_url := "http://cdn.static-fra.de/now/vodplayer.swf"
            tbr := int_or_none (some "800") } :=
  ⟨by decide,
    (nowtv_C7 { path := "/app1/sub/video.f4v", bitrate := some "800" } "app1" "sub/video.f4v"
        (by decide)).1⟩

/-- Counterexample to C8 as stated: long and short descriptions are both
present, with the long form the empty string; the result's description is the
short form, not the long form. -/
theorem nowtv_C8_cex :
    ({ id := some "1", title := some "t", files := some (.obj (some [])),
          articleLong := some "", articleShort := some "s" } : ApiInfo).articleLong =
        some "" ∧
      (extractFromInfo "d"
            { id := some "1", title := some "t", files := some (.obj (some [])),
              articleLong := some "", articleShort := some "s" }).map
          ExtractionResult.description =
        .ok (some "s") ∧
      (some "s" : Option String) ≠ some "" := by
  decide

/-- C8 (amended): the result's description is the Python `or` of the long and
short fields — the long form when it is present and non-empty (truthy), the
short-form value as-is when the long form is absent or empty, hence absent
when both are absent. -/
theorem nowtv_C8 (d : String) (info : ApiInfo) (r : ExtractionResult)
    (hr : extractFromInfo d info = .ok r) :
    r.description = pyOr info.articleLong info.articleShort ∧
      (∀ l s, l.data.isEmpty = false → pyOr (some l) s = some l) ∧
      (∀ s, pyOr none s = s) ∧ ∀ s, pyOr (some "") s = s := by
  obtain ⟨vid, items, fmts, title, hid, hfi, hpi, htl, hre⟩ := extract_ok_inv d info r hr
  refine ⟨by rw [hre], ?_, fun s => rfl, fun s => rfl⟩
  intro l s hl
  simp [pyOr, hl]

/-- Witness for C8 (amended) at a concrete payload. -/
theorem nowtv_C8_witness :
    extractFromInfo "d" c8Info = .ok c8Result ∧ c8Result.description = some "L" := by
  have h := nowtv_C8 "d" c8Info c8Result (by decide)
  refine ⟨by decide, ?_⟩
  rw [h.1]
  decide

/-- C9: the payload transformation is deterministic — two runs of
`realExtract` on the same slug and payload yield equal results; the embedding
is a pure function of its inputs, so no hidden state can influence the
output. -/
theorem nowtv_C9 (slug : String) (info : ApiInfo) (r1 r2 : Except ExtErr ExtractionResult)
    (h1 : realExtract slug info = r1) (h2 : realExtract slug info = r2) : r1 = r2 := by
  rw [← h1, ← h2]

/-- Witness for C9: two concrete runs on the same slug and payload agree. -/
theorem nowtv_C9_witness : (Except.ok c9Result : Except ExtErr ExtractionResult) = .ok c9Result :=
  nowtv_C9 "s/ug" c9Info (.ok c9Result) (.ok c9Result) (by decide) (by decide)

/-- C10: a retained `f4v` descriptor whose path contains no further `/` after
stripping at most one leading `/` makes the two-way split fail: the loop
aborts with an unhandled `ValueError` instead of skipping the descriptor or
producing a variant. -/
theorem nowtv_C10 (item : FileItem) (rest : List FileItem)
    (hext : determine_ext item.path = "f4v")
    (hns : '/' ∉ (remove_start item.path "/").data) :
    mkVariant item = none ∧
      processItems (item :: rest) = .error (.valueError "not enough values to unpack") := by
  have hmk : mkVariant item = none := by
    simp [mkVariant, splitOnce, splitOnceAux_eq_none hns]
  exact ⟨hmk, by simp [processItems, hext, hmk]⟩

/-- Witness for C10 at the path `video.f4v`. -/
theorem nowtv_C10_witness :
    mkVariant { path := "video.f4v" } = none ∧
      processItems [{ path := "video.f4v" }] =
        .error (.valueError "not enough values to unpack") :=
  nowtv_C10 { path := "video.f4v" } [] (by decide) (by decide)

end NowTV
